import Mathlib

/-!
Verification of the `apply_also` Rust crate (src/lib.rs).

The crate provides four generic combinators as blanket trait impls over
every type `T`:

  - `apply(self, f)      = f(self)`          (Apply::apply,      lib.rs:86-88)
  - `apply_ref(self, f)  = f(&self)`         (Apply::apply_ref,  lib.rs:90-92)
  - `also(self, g)       = { g(&self); self }`       (Also::also,     lib.rs:96-99)
  - `also_mut(self, h)   = { h(&mut self); self }`   (Also::also_mut, lib.rs:101-104)

Shallow embedding conventions:
  - A Rust value of type `T` is a Lean value of type `T`; an immutable
    reference `&T` handed to a pure closure is modelled by the value itself.
  - A mutating closure `FnOnce(&mut T) -> ()` is modelled as a state
    transformer `T → T`: the value it leaves behind in place.
  - Closures with observable side effects are modelled by threading an
    explicit effect state `σ` (a call counter or an effect trace):
    `FnOnce(T) -> R` with effects becomes `T → σ → R × σ`, and the
    purely-effectful `FnOnce(&T) -> ()` becomes `T → σ → σ`.
  - A closure that may panic is modelled as returning `Except ε _`;
    the combinator body, which performs no catching, propagates the error.
-/

namespace ApplyAlso

/-- `Apply::apply` (lib.rs:86-88): `fn apply(self, function) -> R { function(self) }`. -/
def apply {T R : Type _} (v : T) (function : T → R) : R :=
  function v

/-- `Apply::apply_ref` (lib.rs:90-92): `fn apply_ref(self, function) -> R { function(&self) }`.
The immutable borrow `&self` is the value itself in the shallow embedding. -/
def apply_ref {T R : Type _} (v : T) (function : T → R) : R :=
  function v

/-- `Also::also` (lib.rs:96-99): `fn also(self, function) -> T { function(&self); self }`.
With a pure effect function the call to `function` is evaluated and its
unit result discarded; the original value is returned. -/
def also {T : Type _} (v : T) (function : T → Unit) : T :=
  let _ := function v
  v

/-- `Also::also_mut` (lib.rs:101-104):
`fn also_mut(mut self, function) -> T { function(&mut self); self }`.
The mutating closure is modelled as the state transformer `T → T` it
performs on the value; `self` after the call is that transformed value. -/
def also_mut {T : Type _} (v : T) (function : T → T) : T :=
  function v

/-! ### Effect-instrumented embedding

The Rust closures may close over mutable state (e.g. a call counter) or
perform I/O effects. We model such a closure by threading an explicit
effect state `σ` through it. Each combinator body contains exactly one
call of the supplied closure, so the combinator applies the threaded
closure to the incoming state exactly once. -/

/-- `apply` with an effectful closure `T → σ → R × σ`: the single call
`function(self)` both produces the result and advances the effect state. -/
def applyS {T R σ : Type _} (v : T) (function : T → σ → R × σ) (s : σ) : R × σ :=
  function v s

/-- `apply_ref` with an effectful closure. -/
def apply_refS {T R σ : Type _} (v : T) (function : T → σ → R × σ) (s : σ) : R × σ :=
  function v s

/-- `also` with an effectful closure `T → σ → σ` (unit-returning, effect
only): `function(&self); self` runs the effect once, then returns `self`. -/
def alsoS {T σ : Type _} (v : T) (function : T → σ → σ) (s : σ) : T × σ :=
  (v, function v s)

/-- `also_mut` with an effectful mutating closure `T → σ → T × σ`:
the single call mutates the value and advances the effect state, and the
mutated value is returned. -/
def also_mutS {T σ : Type _} (v : T) (function : T → σ → T × σ) (s : σ) : T × σ :=
  function v s

/-- Instrument a pure closure with a call counter: each invocation
increments the counter by one. Used to observe how many times a
combinator calls its closure. -/
def countCalls {T R : Type _} (f : T → R) : T → Nat → R × Nat :=
  fun v n => (f v, n + 1)

/-- Instrument a pure effect closure (unit-returning) with a call counter. -/
def countCallsUnit {T : Type _} : T → Nat → Nat :=
  fun _ n => n + 1

/-! ### Panic/failure embedding

A closure that may fail (panic) is modelled as returning `Except ε _`.
The Rust combinator bodies contain no `catch_unwind` or any other
handling: an error raised by the closure is the result of the whole
combinator call. -/

/-- `apply` with a fallible closure: `function(self)` is the entire body,
so its outcome (success or failure) is the outcome of the call. -/
def applyE {T R ε : Type _} (v : T) (function : T → Except ε R) : Except ε R :=
  function v

/-- `apply_ref` with a fallible closure. -/
def apply_refE {T R ε : Type _} (v : T) (function : T → Except ε R) : Except ε R :=
  function v

/-- `also` with a fallible effect closure: if `function(&self)` fails the
failure propagates before `self` is returned; otherwise `self` is returned. -/
def alsoE {T ε : Type _} (v : T) (function : T → Except ε Unit) : Except ε T :=
  (function v).map (fun _ => v)

/-- `also_mut` with a fallible mutating closure: on success the mutated
value is returned, on failure the failure propagates. -/
def also_mutE {T ε : Type _} (v : T) (function : T → Except ε T) : Except ε T :=
  function v

/-! ### Theorems for the claims -/

/-- C1: for every value `v` and every function `f`, `apply v f` returns
exactly `f v` — the combinator delegates directly to the supplied function. -/
theorem apply_delegates {T R : Type _} (v : T) (f : T → R) :
    apply v f = f v := rfl

/-- C2: for every value `v` and every function `f` taking a reference,
`apply_ref v f` returns exactly `f` applied to the (read-only view of) `v`. -/
theorem apply_ref_delegates {T R : Type _} (v : T) (f : T → R) :
    apply_ref v f = f v := rfl

/-- C3: for every value `v` and every effect function `g`, `also v g`
returns a value equal to the original `v` (pure form), and in the
effect-instrumented form the returned value is `v` and `g` is invoked
exactly once with a read-only view of `v` (a counter starting at `n`
ends at `n + 1`, advanced at input `v`). -/
theorem also_returns_original {T : Type _} (v : T) (g : T → Unit) (n : Nat) :
    also v g = v ∧ alsoS v countCallsUnit n = (v, n + 1) :=
  ⟨rfl, rfl⟩

/-- C4: for every value `v` and every mutating function `h` (modelled as
the in-place transformation it performs), `also_mut v h` returns the
value after `h` has been applied to it exactly once, every mutation
visible in the result; in particular pushing "hello" then "world" onto
an empty list yields ["hello", "world"]. -/
theorem also_mut_applies_mutation {T : Type _} (v : T) (h : T → T) :
    also_mut v h = h v ∧
      also_mut ([] : List String)
        (fun l => (l.concat "hello").concat "world") = ["hello", "world"] :=
  ⟨rfl, rfl⟩

/-- C5: each of the four combinators invokes its supplied function exactly
once: with a call-counter-instrumented closure, a counter starting at `n`
ends at exactly `n + 1` after the combinator call, for `apply`,
`apply_ref`, `also` and `also_mut` alike. -/
theorem combinators_call_exactly_once {T R : Type _}
    (v : T) (f : T → R) (h : T → T) (n : Nat) :
    (applyS v (countCalls f) n).2 = n + 1 ∧
    (apply_refS v (countCalls f) n).2 = n + 1 ∧
    (alsoS v countCallsUnit n).2 = n + 1 ∧
    (also_mutS v (countCalls h) n).2 = n + 1 :=
  ⟨rfl, rfl, rfl, rfl⟩

/-- C6: if the supplied function fails with error `e` at input `v`, each
combinator call terminates with that same failure `e`, unchanged — no
wrapping, translation, suppression or retry. -/
theorem failure_propagates_unchanged {T R ε : Type _}
    (v : T) (e : ε)
    (f : T → Except ε R) (g : T → Except ε Unit) (h : T → Except ε T)
    (hf : f v = Except.error e) (hg : g v = Except.error e)
    (hh : h v = Except.error e) :
    applyE v f = Except.error e ∧
    apply_refE v f = Except.error e ∧
    alsoE v g = Except.error e ∧
    also_mutE v h = Except.error e := by
  refine ⟨hf, hf, ?_, hh⟩
  simp [alsoE, hg, Except.map]

/-- Witness for C6 at concrete inputs: the constantly-failing closure on
`v = 0` with error `"boom"` makes each combinator fail with `"boom"`. -/
theorem failure_propagates_unchanged_witness :
    applyE (0 : Nat) (fun _ => (Except.error "boom" : Except String Nat))
      = Except.error "boom" ∧
    apply_refE (0 : Nat) (fun _ => (Except.error "boom" : Except String Nat))
      = Except.error "boom" ∧
    alsoE (0 : Nat) (fun _ => (Except.error "boom" : Except String Unit))
      = Except.error "boom" ∧
    also_mutE (0 : Nat) (fun _ => (Except.error "boom" : Except String Nat))
      = Except.error "boom" :=
  failure_propagates_unchanged 0 "boom" _ _ _ rfl rfl rfl

/-- C7: if the supplied function terminates normally at `v`, the
combinator call terminates normally and produces a result: the
combinators introduce no failure mode of their own. -/
theorem no_intrinsic_failure {T R ε : Type _}
    (v : T) (r : R) (t : T)
    (f : T → Except ε R) (g : T → Except ε Unit) (h : T → Except ε T)
    (hf : f v = Except.ok r) (hg : g v = Except.ok ())
    (hh : h v = Except.ok t) :
    applyE v f = Except.ok r ∧
    apply_refE v f = Except.ok r ∧
    alsoE v g = Except.ok v ∧
    also_mutE v h = Except.ok t := by
  refine ⟨hf, hf, ?_, hh⟩
  simp [alsoE, hg, Except.map]

/-- Witness for C7 at concrete inputs: succeeding closures on `v = 5`
make each combinator succeed with the closure's result (or the original
value for `also`). -/
theorem no_intrinsic_failure_witness :
    applyE (5 : Nat) (fun x => (Except.ok (x + 1) : Except String Nat))
      = Except.ok 6 ∧
    apply_refE (5 : Nat) (fun x => (Except.ok (x + 1) : Except String Nat))
      = Except.ok 6 ∧
    alsoE (5 : Nat) (fun _ => (Except.ok () : Except String Unit))
      = Except.ok 5 ∧
    also_mutE (5 : Nat) (fun x => (Except.ok (x * 2) : Except String Nat))
      = Except.ok 10 :=
  no_intrinsic_failure 5 6 10 _ _ _ rfl rfl rfl

/-- C8: `apply_ref v f` equals `apply` called on the (read-only view of
the) value with the same function — `apply_ref` is an exact shorthand for
calling `apply` on a reference to the value, both yielding `f` applied
to `v`. -/
theorem apply_ref_is_apply_on_ref {T R : Type _} (v : T) (f : T → R) :
    apply_ref v f = apply v f ∧ apply_ref v f = f v :=
  ⟨rfl, rfl⟩

/-- C9: `apply` is compositional — chaining two `apply` calls equals one
`apply` of the composed function. -/
theorem apply_compose {T R S : Type _} (v : T) (f : T → R) (g : R → S) :
    apply (apply v f) g = apply v (fun x => g (f x)) := rfl

/-- C10: each combinator is deterministic — two runs with equal input
values, the same supplied function and equal initial effect states return
equal results and equal final effect states (equal effect sequences). -/
theorem combinators_deterministic {T R σ : Type _}
    (v₁ v₂ : T) (s₁ s₂ : σ)
    (f : T → σ → R × σ) (g : T → σ → σ) (h : T → σ → T × σ)
    (hv : v₁ = v₂) (hs : s₁ = s₂) :
    applyS v₁ f s₁ = applyS v₂ f s₂ ∧
    apply_refS v₁ f s₁ = apply_refS v₂ f s₂ ∧
    alsoS v₁ g s₁ = alsoS v₂ g s₂ ∧
    also_mutS v₁ h s₁ = also_mutS v₂ h s₂ := by
  subst hv; subst hs
  exact ⟨rfl, rfl, rfl, rfl⟩

/-- Witness for C10 at concrete inputs: two runs on the value `7` with
counter state `0` and an incrementing closure agree for each combinator. -/
theorem combinators_deterministic_witness :
    applyS (7 : Nat) (fun x n => (x + 1, n + 1)) 0
      = applyS (7 : Nat) (fun x n => (x + 1, n + 1)) 0 ∧
    apply_refS (7 : Nat) (fun x n => (x + 1, n + 1)) 0
      = apply_refS (7 : Nat) (fun x n => (x + 1, n + 1)) 0 ∧
    alsoS (7 : Nat) (fun _ n => n + 1) 0 = alsoS (7 : Nat) (fun _ n => n + 1) 0 ∧
    also_mutS (7 : Nat) (fun x n => (x * 2, n + 1)) 0
      = also_mutS (7 : Nat) (fun x n => (x * 2, n + 1)) 0 :=
  combinators_deterministic 7 7 0 0 _ _ _ rfl rfl

end ApplyAlso
